import Mathlib

/-!
# Verification of the GreenPoint environmental-data aggregation server

A shallow embedding of the server-side pipeline of the GreenPoint repository:
the CSV species table, the `/api/get-combined-data` request handler, the three
environmental source clients (NASA POWER, OpenWeatherMap, Open-EPI soil with
retry), the Gemini analysis invoker (`gemini.js`), and the client-side plant
suggestion scan and score extraction from `Analyzepage.vue`.

External HTTP behaviour is modelled by explicit environment values describing
the outcome each provider would deliver for the request; every function of the
source is translated into a total Lean function over those environments, and
the handler additionally reports the calls it performed so that "no network
I/O happened" claims are provable.
-/

deriving instance DecidableEq for Except

namespace GreenPoint

/-- A JavaScript number as the server observes it: `NaN` or a rational value.
(The repository never produces infinities on the modelled paths.) -/
inductive JSNumber where
  | nan
  | val (q : ℚ)
deriving DecidableEq

/-- A JavaScript value occurring in a JSON request body field. -/
inductive JSValue where
  | undef
  | null
  | num (n : JSNumber)
  | str (s : String)
deriving DecidableEq

/-- JavaScript truthiness of a request-body value. -/
def JSValue.truthy : JSValue → Bool
  | .undef => false
  | .null => false
  | .num .nan => false
  | .num (.val q) => q != 0
  | .str s => s != ""

/-- The whitespace characters relevant to the modelled inputs. -/
def isWsChar (c : Char) : Bool :=
  c = ' ' || c = '\t' || c = '\n' || c = '\r'

/-- Numeric value of a digit string (most significant digit first). -/
def digitsToNat (ds : List Char) : ℕ :=
  ds.foldl (fun a c => a * 10 + (c.toNat - 48)) 0

/-- Parse an unsigned decimal literal at the head of `cs`, JS-`parseFloat`
style: the longest prefix `digits`, `digits.digits`, `.digits` or `digits.`;
`none` when no digit is present. -/
def parseDecimal (cs : List Char) : Option ℚ :=
  let ip := cs.takeWhile Char.isDigit
  let rest := cs.dropWhile Char.isDigit
  match rest with
  | '.' :: rest2 =>
      let fp := rest2.takeWhile Char.isDigit
      if ip.isEmpty && fp.isEmpty then none
      else some ((digitsToNat ip : ℚ) + (digitsToNat fp : ℚ) / (10 : ℚ) ^ fp.length)
  | _ => if ip.isEmpty then none else some (digitsToNat ip : ℚ)

/-- JS `parseFloat` on a string: skip leading whitespace, optional sign, then
the longest decimal prefix; `NaN` when no digits can be read.  (Exponent forms
are not modelled; no claim exercises them.) -/
def parseFloatChars (cs : List Char) : JSNumber :=
  let cs := cs.dropWhile isWsChar
  match cs with
  | '-' :: rest =>
      match parseDecimal rest with
      | some q => .val (-q)
      | none => .nan
  | '+' :: rest =>
      match parseDecimal rest with
      | some q => .val q
      | none => .nan
  | _ =>
      match parseDecimal cs with
      | some q => .val q
      | none => .nan

/-- JS `parseFloat` applied to a request-body value: `ToString` of the value
is parsed, so `undefined`, `null` and non-numeric strings give `NaN` while a
number round-trips. -/
def parseFloatJS : JSValue → JSNumber
  | .undef => .nan
  | .null => .nan
  | .num n => n
  | .str s => parseFloatChars s.data

/-- JS `String.prototype.toLowerCase` (ASCII-adequate for the table data). -/
def lowerStr (s : String) : String :=
  String.mk (s.data.map Char.toLower)

/-- JS `String.prototype.trim`: strip leading and trailing whitespace. -/
def jsTrim (s : String) : String :=
  String.mk (((s.data.dropWhile isWsChar).reverse.dropWhile isWsChar).reverse)

/-- JS `String.prototype.includes`: substring containment. -/
def substrContains (hay needle : String) : Bool :=
  decide (needle.data <:+: hay.data)

/-! ## Species table (CSV load in `server.js` / `part_003`) -/

/-- One raw CSV row as delivered by `csv-parser`: every field is text. -/
structure CsvRow where
  ScientificName : String
  COMNAME : String
  LIFO : String
  TMIN : String
  TMAX : String
  PHMIN : String
  PHMAX : String
deriving DecidableEq

/-- A processed row of the in-memory `plantData` table.  Numeric fields are
`none` exactly where the source stores JS `null`. -/
structure ProcessedPlant where
  ScientificName : String
  COMNAME : String
  LIFO : String
  TMIN : Option JSNumber
  TMAX : Option JSNumber
  PHMIN : Option JSNumber
  PHMAX : Option JSNumber
deriving DecidableEq

/-- `row.F !== 'NA' && row.F !== '' ? parseFloat(row.F) : null` from the CSV
`data` callback. -/
def numField (text : String) : Option JSNumber :=
  if text ≠ "NA" ∧ text ≠ "" then some (parseFloatChars text.data) else none

/-- The `processedRow` built for each CSV record on server start. -/
def processRow (row : CsvRow) : ProcessedPlant :=
  { ScientificName := row.ScientificName
    COMNAME := row.COMNAME
    LIFO := row.LIFO
    TMIN := numField row.TMIN
    TMAX := numField row.TMAX
    PHMIN := numField row.PHMIN
    PHMAX := numField row.PHMAX }

/-- The whole startup load: every row is processed and pushed, in order. -/
def loadPlantData (rows : List CsvRow) : List ProcessedPlant :=
  rows.map processRow

/-! ## Source clients

Each external HTTP call is modelled by an environment value describing the
outcome the provider delivers for this request; the client functions below are
the total translations of the corresponding `async function`s in `part_003`. -/

/-- Outcome of one plain HTTP fetch against a provider: a parsed success body,
a non-success status (with the error body when its JSON parse succeeds), or a
transport error thrown by `fetch` itself. -/
inductive HttpOutcome (β : Type) where
  | ok (body : β)
  | httpErr (status : ℕ) (errBody : Option String)
  | netErr (msg : String)

/-- Per-source result: the extracted success payload, or the error object the
client builds (`error` message plus the optional `details`/`raw` attachment). -/
inductive SResult (α : Type) where
  | ok (payload : α)
  | err (error : String) (extra : Option String)
deriving DecidableEq

/-- NASA POWER success body: `data.properties.parameter` when both levels are
present (the payload is kept opaque), and the raw body used by the error
fallback. -/
structure NasaBody where
  parameterData : Option String
  raw : String
deriving DecidableEq

/-- `fetchNasaPowerAPI` from `part_003`. -/
def fetchNasaPowerAPI (env : HttpOutcome NasaBody) : SResult String :=
  match env with
  | .ok body =>
      match body.parameterData with
      | some p => .ok p
      | none => .err "Parameter data not found in NASA POWER response" (some body.raw)
  | .httpErr status errBody =>
      .err ("NASA POWER API request failed: " ++ toString status)
        (some (errBody.getD ("NASA POWER API responded with " ++ toString status)))
  | .netErr msg => .err ("Failed to fetch NASA POWER data: " ++ msg) none

/-- `fetchOpenWeatherAPI` from `part_003`: a success body is returned whole. -/
def fetchOpenWeatherAPI (env : HttpOutcome String) : SResult String :=
  match env with
  | .ok body => .ok body
  | .httpErr status errBody =>
      .err ("OpenWeatherMap API request failed: " ++ toString status)
        (some (errBody.getD ("OpenWeatherMap API responded with " ++ toString status)))
  | .netErr msg => .err ("Failed to fetch OpenWeatherMap data: " ++ msg) none

/-! ## Soil client with retry (`fetchSoilAPIWithRetry`) -/

/-- Outcome of one soil-API attempt.  For a 200 response the body is read as
`data.properties.probabilities`: `respOk (some (some p))` when the field holds
a truthy payload, `respOk (some none)` when `properties` exists but
`probabilities` is absent or falsy, and `respOk none` when the body has no
`properties` object at all (so the JS member access itself throws). -/
inductive SoilStep where
  | respOk (properties : Option (Option String))
  | respErr (status : ℕ) (errBody : Option String)
  | netErr (msg : String)

/-- Message of the TypeError raised by `data.properties.probabilities` when
`data.properties` is `undefined`. -/
def probTypeErrMsg : String :=
  "Cannot read properties of undefined (reading 'probabilities')"

/-- Observable run of the soil client: final result, number of attempts
performed, and total backoff delay slept (ms). -/
structure SoilRun where
  result : SResult String
  attempts : ℕ
  delayMs : ℕ
deriving DecidableEq

/-- The retry loop body of `fetchSoilAPIWithRetry`: `attempt` is the current
1-based attempt number, `remaining` the number of loop iterations left
(`retries + 1 - attempt` at every call). -/
def soilGo (env : ℕ → SoilStep) (retries : ℕ) : ℕ → ℕ → SoilRun
  | attempt, 0 =>
      { result := .err ("Soil API request failed exhaustively after "
          ++ toString retries ++ " attempts.") none
        attempts := attempt - 1
        delayMs := 0 }
  | attempt, remaining + 1 =>
      match env attempt with
      | .respOk (some (some payload)) =>
          { result := .ok payload, attempts := attempt, delayMs := 0 }
      | .respOk (some none) =>
          { result := .err "Soil probability data not found (parsed)" none
            attempts := attempt
            delayMs := 0 }
      | .respOk none =>
          if attempt = retries then
            { result := .err ("Soil API fetch failed after " ++ toString retries
                ++ " attempts: " ++ probTypeErrMsg) none
              attempts := attempt
              delayMs := 0 }
          else
            let rest := soilGo env retries (attempt + 1) remaining
            { rest with delayMs := attempt * 1500 + rest.delayMs }
      | .respErr status errBody =>
          if attempt = retries then
            { result := .err ("Soil API failed after " ++ toString retries
                ++ " attempts: " ++ toString status)
                (some (errBody.getD ("Soil API responded with " ++ toString status
                  ++ " on attempt " ++ toString attempt)))
              attempts := attempt
              delayMs := 0 }
          else
            let rest := soilGo env retries (attempt + 1) remaining
            { rest with delayMs := attempt * 1500 + rest.delayMs }
      | .netErr msg =>
          if attempt = retries then
            { result := .err ("Soil API fetch failed after " ++ toString retries
                ++ " attempts: " ++ msg) none
              attempts := attempt
              delayMs := 0 }
          else
            let rest := soilGo env retries (attempt + 1) remaining
            { rest with delayMs := attempt * 1500 + rest.delayMs }

/-- `fetchSoilAPIWithRetry(latitude, longitude, retries = 3)` from `part_003`;
the trailing `return` after the loop corresponds to the `remaining = 0` case
of `soilGo`. -/
def fetchSoilAPIWithRetry (env : ℕ → SoilStep) (retries : ℕ := 3) : SoilRun :=
  soilGo env retries 1 retries

/-! ## Analysis invoker (`gemini.js`, the module `part_003` requires) -/

/-- The first candidate's diagnostic metadata, as far as the empty-response
branch of `getAnalysisFromGemini` reads it (already JSON-stringified where the
source stringifies).  `none` models a falsy field. -/
structure Candidate where
  finishReason : Option String
  safetyRatings : Option String
deriving DecidableEq

/-- Shape of `response.text` on the object `await result.response` delivers:
falsy, the normal SDK method (invoking it yields the generated string), or a
truthy non-function (invoking it throws a TypeError). -/
inductive GenText where
  | missing
  | callable (s : String)
  | nonCallable
deriving DecidableEq

/-- The response object of a non-throwing `generateContent` call. -/
structure GenResponse where
  text : GenText
  candidates : List Candidate
deriving DecidableEq

/-- Outcome of one `model.generateContent` call: a rejection (with the error's
message and the optional `promptFeedback` block data), or a response object
(`none` models a nullish response). -/
inductive GeminiOutcome where
  | throw (msg : String) (blockReason : Option String) (safetyRatings : Option String)
  | respond (resp : Option GenResponse)

/-- `AnalysisResult`: the object `getAnalysisFromGemini` resolves with. -/
structure AnalysisResult where
  success : Bool
  analysis_text : Option String
  error : Option String
  details : Option String
deriving DecidableEq

/-- Details string built by the catch block of `getAnalysisFromGemini`. -/
def geminiCatchDetails (msg : String) (blockReason safetyRatings : Option String) : String :=
  match blockReason with
  | some br =>
      let d := msg ++ " Block Reason: " ++ br
      match safetyRatings with
      | some sr => d ++ " Safety Ratings: " ++ sr
      | none => d
  | none =>
      if substrContains (lowerStr msg) "api key not valid" then
        "Gemini API key not valid. Please check your API key configuration."
      else msg

/-- Details string built by the empty-or-blocked branch: inside that branch
`responseText` always stays `"No text content in response."`, and the finish
reason / safety ratings come from the first candidate when one exists. -/
def geminiEmptyDetails (resp : Option GenResponse) : String :=
  let finishReason :=
    match resp with
    | some r =>
        match r.candidates.head? with
        | some c => c.finishReason.getD "Unknown"
        | none => "Unknown"
    | none => "Unknown"
  let safety :=
    match resp with
    | some r =>
        match r.candidates.head? with
        | some c => c.safetyRatings.getD "Not available"
        | none => "Not available"
    | none => "Not available"
  "Finish Reason: " ++ finishReason ++ ". Safety Ratings: " ++ safety
    ++ ". Response Text: No text content in response."

/-- The placeholder returned when the module-level `model` is null. -/
def placeholderResult : AnalysisResult :=
  { success := false
    analysis_text := some ("PLACEHOLDER from gemini.js: Gemini model not available "
      ++ "(API Key likely not configured or initialization failed). This is a simulated response.")
    error := some "Gemini model not initialized in gemini.js"
    details := none }

/-- Module initialisation of `gemini.js`: `model` is non-null exactly when
`GEMINI_API_KEY` is set and `getGenerativeModel` does not throw. -/
def initGeminiModel (apiKey : Option String) (initThrows : Bool) : Bool :=
  match apiKey with
  | none => false
  | some _ => !initThrows

/-- `getAnalysisFromGemini` of `gemini.js`, paired with the number of network
calls (`generateContent` invocations) it performs. -/
def getAnalysisFromGemini (modelConfigured : Bool) (outcome : GeminiOutcome) :
    AnalysisResult × ℕ :=
  if modelConfigured = false then (placeholderResult, 0)
  else
    match outcome with
    | .throw msg br sr =>
        ({ success := false
           analysis_text := none
           error := some "Failed to get analysis from Gemini AI."
           details := some (geminiCatchDetails msg br sr) }, 1)
    | .respond none =>
        ({ success := false
           analysis_text := none
           error := some "Gemini response was empty or potentially blocked."
           details := some (geminiEmptyDetails none) }, 1)
    | .respond (some r) =>
        match r.text with
        | .missing =>
            ({ success := false
               analysis_text := none
               error := some "Gemini response was empty or potentially blocked."
               details := some (geminiEmptyDetails (some r)) }, 1)
        | .callable s =>
            ({ success := true, analysis_text := some s, error := none, details := none }, 1)
        | .nonCallable =>
            ({ success := false
               analysis_text := none
               error := some "Failed to get analysis from Gemini AI."
               details := some (geminiCatchDetails "response.text is not a function" none none) }, 1)

/-! ## Request handler (`/api/get-combined-data`, `part_003`) -/

/-- The destructured request body. -/
structure RequestBody where
  latitude : JSValue
  longitude : JSValue
  plantScientificName : JSValue
  planDescription : JSValue
deriving DecidableEq

/-- The validation guard of the handler: latitude/longitude are checked with
`=== undefined`, the two strings with plain falsiness. -/
def missingFields (body : RequestBody) : Bool :=
  body.latitude == .undef || body.longitude == .undef
    || !body.plantScientificName.truthy || !body.planDescription.truthy

/-- `plantData.find(p => p.ScientificName && p.ScientificName.toLowerCase()
=== plantScientificName.toLowerCase())`.  The callback short-circuits on a
falsy `ScientificName`; when it does reach `plantScientificName.toLowerCase()`
with a non-string value a TypeError escapes to the handler's catch. -/
def findPlant (plantData : List ProcessedPlant) (name : JSValue) :
    Except String (Option ProcessedPlant) :=
  match plantData with
  | [] => .ok none
  | p :: rest =>
      if p.ScientificName ≠ "" then
        match name with
        | .str s =>
            if lowerStr p.ScientificName = lowerStr s then .ok (some p)
            else findPlant rest name
        | _ => .error "plantScientificName.toLowerCase is not a function"
      else findPlant rest name

/-- `location_conditions` of the aggregated record. -/
structure LocationConditions where
  nasa_power : SResult String
  open_weather : SResult String
  soil_type_probabilities : SResult String
deriving DecidableEq

/-- `userInput` of the aggregated record. -/
structure UserInput where
  latitude : JSNumber
  longitude : JSNumber
  planDescription : JSValue
deriving DecidableEq

/-- The aggregated record handed to the analysis invoker. -/
structure AggregatedData where
  userInput : UserInput
  location_conditions : LocationConditions
  plant_requirements : ProcessedPlant
deriving DecidableEq

/-- Body of the 200 response: `{ data_summary, ai_analysis }`. -/
structure CombinedBody where
  data_summary : AggregatedData
  ai_analysis : AnalysisResult
deriving DecidableEq

/-- The handler's response, by status category. -/
inductive Response where
  | badRequest (error : String)
  | notFound (error : String)
  | serverError (error : String) (details : String)
  | ok (body : CombinedBody)
deriving DecidableEq

/-- Instrumentation: how many times each external collaborator was touched
while serving one request. -/
structure Effects where
  speciesLookups : ℕ
  nasaCalls : ℕ
  openWeatherCalls : ℕ
  soilAttempts : ℕ
  geminiCalls : ℕ
deriving DecidableEq

/-- No work performed. -/
def Effects.zero : Effects := ⟨0, 0, 0, 0, 0⟩

/-- The outside world as one request observes it: what each provider and the
generative backend would deliver, and whether the Gemini model initialised. -/
structure Env where
  nasa : HttpOutcome NasaBody
  openWeather : HttpOutcome String
  soil : ℕ → SoilStep
  geminiModelConfigured : Bool
  gemini : GeminiOutcome

/-- The 404 message `Plant data not found for ${plantScientificName}.`
(rendering of non-string values is abbreviated; no claim reads it). -/
def notFoundMsg (name : JSValue) : String :=
  match name with
  | .str s => "Plant data not found for " ++ s ++ "."
  | _ => "Plant data not found."

/-- The `/api/get-combined-data` handler of `part_003`, returning the response
and the calls performed.  The three fetches of the `Promise.all` never reject
(each client catches its own errors), so its `.catch` is unreachable; the
outer catch is reachable only through the TypeError of `findPlant`. -/
def getCombinedData (plantData : List ProcessedPlant) (env : Env)
    (body : RequestBody) : Response × Effects :=
  if missingFields body then
    (.badRequest "Latitude, longitude, plantScientificName, and planDescription are required.",
     Effects.zero)
  else
    match findPlant plantData body.plantScientificName with
    | .error msg =>
        (.serverError "Failed to perform suitability analysis." msg,
         { Effects.zero with speciesLookups := 1 })
    | .ok none =>
        (.notFound (notFoundMsg body.plantScientificName),
         { Effects.zero with speciesLookups := 1 })
    | .ok (some plantInfo) =>
        let nasaRes := fetchNasaPowerAPI env.nasa
        let owRes := fetchOpenWeatherAPI env.openWeather
        let soilRun := fetchSoilAPIWithRetry env.soil
        let aggregated : AggregatedData :=
          { userInput :=
              { latitude := parseFloatJS body.latitude
                longitude := parseFloatJS body.longitude
                planDescription := body.planDescription }
            location_conditions :=
              { nasa_power := nasaRes
                open_weather := owRes
                soil_type_probabilities := soilRun.result }
            plant_requirements := plantInfo }
        let analysisRun := getAnalysisFromGemini env.geminiModelConfigured env.gemini
        (.ok { data_summary := aggregated, ai_analysis := analysisRun.1 },
         { speciesLookups := 1
           nasaCalls := 1
           openWeatherCalls := 1
           soilAttempts := soilRun.attempts
           geminiCalls := analysisRun.2 })

/-! ## Plant suggestions (`handlePlantInput` in `Analyzepage.vue`) -/

/-- A plant as the client stores it after `fetchAllPlants` (only the fields
the suggestion scan reads). -/
structure ClientPlant where
  ScientificName : String
  COMNAME : String
deriving DecidableEq

/-- `COMNAME.split(',').map(name => name.trim())`. -/
def splitTrim (s : String) : List String :=
  (s.splitOn ",").map jsTrim

/-- `commonNamesArray` precomputed by `fetchAllPlants`. -/
def commonNamesArray (p : ClientPlant) : List String :=
  if p.COMNAME ≠ "" then (splitTrim p.COMNAME).map lowerStr else []

/-- `ScientificNameLower` precomputed by `fetchAllPlants`. -/
def sciLower (p : ClientPlant) : String :=
  if p.ScientificName ≠ "" then lowerStr p.ScientificName else ""

/-- One suggestion entry: the scientific name and, for a common-name match,
the reported alias. -/
structure Suggestion where
  ScientificName : String
  matchedCommonName : Option String
deriving DecidableEq

/-- One loop iteration of `handlePlantInput`: possibly push a suggestion for
`p` onto `filtered` and record its name in `added` (the
`addedScientificNames` set). -/
def suggestStep (query : String) (p : ClientPlant)
    (filtered : List Suggestion) (added : List String) :
    List Suggestion × List String :=
  if sciLower p ≠ "" ∧ substrContains (sciLower p) query then
    if p.ScientificName ∈ added then (filtered, added)
    else (filtered ++ [⟨p.ScientificName, none⟩], added ++ [p.ScientificName])
  else
    match (commonNamesArray p).find? (fun cn => substrContains cn query) with
    | some foundCn =>
        if p.ScientificName ∈ added then (filtered, added)
        else
          let originals := if p.COMNAME ≠ "" then splitTrim p.COMNAME else []
          let originalMatched :=
            originals.find? (fun ocn => substrContains (lowerStr ocn) query)
          let matched :=
            match originalMatched with
            | some m => if m = "" then foundCn else m
            | none => foundCn
          (filtered ++ [⟨p.ScientificName, some matched⟩], added ++ [p.ScientificName])
    | none => (filtered, added)

/-- The scan loop: after each plant, stop as soon as 7 suggestions are
collected. -/
def suggestGo (query : String) :
    List ClientPlant → List Suggestion → List String → List Suggestion
  | [], filtered, _ => filtered
  | p :: rest, filtered, added =>
      let next := suggestStep query p filtered added
      if 7 ≤ next.1.length then next.1 else suggestGo query rest next.1 next.2

/-- `handlePlantInput`: trim and lowercase the input; an empty query clears
the suggestions. -/
def handlePlantInput (allPlants : List ClientPlant) (input : String) :
    List Suggestion :=
  let query := lowerStr (jsTrim input)
  if query = "" then [] else suggestGo query allPlants [] []

/-! ## Score extraction (`parseAndSetScores` in `Analyzepage.vue`)

The regexes `/«label».*?Score\s*:\s*(\d+)\/10/is` are embedded directly: both
sides are lowercased for `/i`, `/s` lets the lazy gap span newlines, and the
match succeeds at the first occurrence of the label followed anywhere later by
`Score`, optional whitespace, `:`, optional whitespace, digits, `/10`. -/

/-- Match a literal at the head of the input, returning the rest. -/
def matchLit : List Char → List Char → Option (List Char)
  | [], cs => some cs
  | _ :: _, [] => none
  | l :: ls, c :: cs => if c = l then matchLit ls cs else none

/-- Try the subpattern `score\s*:\s*(\d+)/10` at the head of the (lowercased)
input; on success return the captured number. -/
def scoreSubMatchAt (cs : List Char) : Option ℕ :=
  match matchLit "score".data cs with
  | none => none
  | some r1 =>
      match r1.dropWhile isWsChar with
      | ':' :: r3 =>
          let r4 := r3.dropWhile isWsChar
          let ds := r4.takeWhile Char.isDigit
          let r5 := r4.dropWhile Char.isDigit
          if ds = [] then none
          else
            match matchLit "/10".data r5 with
            | some _ => some (digitsToNat ds)
            | none => none
      | _ => none

/-- First position where the subpattern matches (the lazy `.*?`). -/
def findScoreSub : List Char → Option ℕ
  | [] => none
  | c :: cs =>
      match scoreSubMatchAt (c :: cs) with
      | some n => some n
      | none => findScoreSub cs

/-- Suffix of the input after the first occurrence of `pat`. -/
def afterFirst (pat : List Char) : List Char → Option (List Char)
  | [] => if pat = [] then some [] else none
  | c :: cs =>
      match matchLit pat (c :: cs) with
      | some rest => some rest
      | none => afterFirst pat cs

/-- `analysisText.match(/«label».*?Score\s*:\s*(\d+)\/10/is)`, reduced to the
captured score. -/
def extractScore (label : String) (text : String) : Option ℕ :=
  match afterFirst (label.data.map Char.toLower) (text.data.map Char.toLower) with
  | some rest => findScoreSub rest
  | none => none

/-- `parseAndSetScores`: the pair (feasibility, sustainability) it stores; the
falsy-text guard leaves both at their reset value `null`. -/
def parseAndSetScores (analysisText : String) : Option ℕ × Option ℕ :=
  if analysisText = "" then (none, none)
  else (extractScore "Feasibility Score" analysisText,
        extractScore "Sustainability Score" analysisText)

/-! ## Derived notions used by the statements below -/

/-- A populated source slot: a success payload or an error object. -/
def SResult.wellFormed {α : Type} : SResult α → Prop :=
  fun r => (∃ p, r = .ok p) ∨ (∃ e d, r = .err e d)

/-- The soil outcomes the retry loop retries on: non-success HTTP status,
transport error, or the caught TypeError of a success body without a
`properties` object. -/
def retryableStep : SoilStep → Bool
  | .respErr _ _ => true
  | .netErr _ => true
  | .respOk none => true
  | .respOk (some _) => false

/-- What the soil client returns when its third (= last, at the default
ceiling) attempt sees the given outcome. -/
def soilFinalErr : SoilStep → SResult String
  | .respErr status errBody =>
      .err ("Soil API failed after " ++ toString 3 ++ " attempts: " ++ toString status)
        (some (errBody.getD ("Soil API responded with " ++ toString status
          ++ " on attempt " ++ toString 3)))
  | .netErr msg =>
      .err ("Soil API fetch failed after " ++ toString 3 ++ " attempts: " ++ msg) none
  | .respOk none =>
      .err ("Soil API fetch failed after " ++ toString 3 ++ " attempts: "
        ++ probTypeErrMsg) none
  | .respOk (some none) => .err "Soil probability data not found (parsed)" none
  | .respOk (some (some p)) => .ok p

/-- The plant's scientific name matched the query (first branch of the scan). -/
def matchesSci (query : String) (p : ClientPlant) : Prop :=
  sciLower p ≠ "" ∧ substrContains (sciLower p) query = true

/-- What one emitted suggestion must look like: it names a matching plant;
a scientific-name match carries no alias, and a common-name match reports the
first original (trimmed, non-lowercased) common name containing the fragment
case-insensitively. -/
def GoodMatch (query : String) (p : ClientPlant) (s : Suggestion) : Prop :=
  s.ScientificName = p.ScientificName ∧
  ((matchesSci query p ∧ s.matchedCommonName = none) ∨
   (¬ matchesSci query p ∧
     s.matchedCommonName =
       (splitTrim p.COMNAME).find? (fun ocn => substrContains (lowerStr ocn) query) ∧
     s.matchedCommonName.isSome = true))

/-! ## Concrete fixtures for witnesses -/

/-- A CSV row for Zea mays with integer-valued numeric fields. -/
def zeaRow : CsvRow :=
  { ScientificName := "Zea mays", COMNAME := "maize, corn", LIFO := "herb"
    TMIN := "10", TMAX := "47", PHMIN := "4", PHMAX := "8" }

/-- An environment where every provider succeeds and the analysis backend
returns the given text. -/
def happyEnv (text : String) : Env :=
  { nasa := .ok { parameterData := some "T2M_MAX-series", raw := "raw-nasa" }
    openWeather := .ok "weather-json"
    soil := fun _ => .respOk (some (some "soil-probabilities"))
    geminiModelConfigured := true
    gemini := .respond (some { text := .callable text, candidates := [] }) }

/-- An environment where the soil provider always returns HTTP 500, NASA
succeeds, OpenWeatherMap hits a transport error and the analysis call
rejects. -/
def degradedEnv : Env :=
  { nasa := .ok { parameterData := some "T2M_MAX-series", raw := "raw-nasa" }
    openWeather := .netErr "socket hang up"
    soil := fun _ => .respErr 500 none
    geminiModelConfigured := true
    gemini := .throw "network unreachable" none none }

/-- The well-formed request body of the end-to-end scenarios. -/
def scenarioBody : RequestBody :=
  { latitude := .num (.val 10), longitude := .num (.val 123)
    plantScientificName := .str "Zea mays", planDescription := .str "small home plot" }

/-- The analysis text of end-to-end scenario A, exactly as the specification
writes it. -/
def scenarioText : String := "... Feasibility Score\n\n7/10 ..."

/-- A CSV row mixing the null markers with an unparsable text. -/
def mixedRow : CsvRow :=
  { ScientificName := "X", COMNAME := "", LIFO := ""
    TMIN := "NA", TMAX := "", PHMIN := "abc", PHMAX := "8" }

/-- Eight client-side plants that all match the fragment "a", more than the
suggestion cap. -/
def eightPlants : List ClientPlant :=
  [⟨"Abies alba", ""⟩, ⟨"Acacia nilotica", ""⟩, ⟨"Acer rubrum", ""⟩,
   ⟨"Zea mays", "maize, corn"⟩, ⟨"Ananas comosus", "pineapple"⟩,
   ⟨"Arachis hypogaea", "peanut, groundnut"⟩, ⟨"Avena sativa", "oat"⟩,
   ⟨"Beta vulgaris", "beet, Sugar Beet"⟩]

/-! # Theorems -/

/-- Every source slot is populated: it is a payload or an error object. -/
theorem SResult.wellFormed_all {α : Type} (r : SResult α) : r.wellFormed := by
  cases r with
  | ok p => exact Or.inl ⟨p, rfl⟩
  | err e d => exact Or.inr ⟨e, d, rfl⟩

/-- When no row matches the query case-insensitively, the `find` returns
`undefined`. -/
theorem findPlant_eq_none (plantData : List ProcessedPlant) (s : String)
    (h : ∀ p ∈ plantData, p.ScientificName ≠ "" → lowerStr p.ScientificName ≠ lowerStr s) :
    findPlant plantData (.str s) = .ok none := by
  induction plantData with
  | nil => rfl
  | cons p rest ih =>
      have hrest : findPlant rest (.str s) = .ok none :=
        ih fun q hq => h q (List.mem_cons_of_mem p hq)
      by_cases hname : p.ScientificName = ""
      · simp [findPlant, hname, hrest]
      · have hne := h p (List.mem_cons_self p rest) hname
        simp [findPlant, hname, hne, hrest]

/-- C5: with no `GEMINI_API_KEY` in the environment the module-level model is
null, so `getAnalysisFromGemini` immediately returns the placeholder — a
`success:false` result with the distinguishable error message
"Gemini model not initialized in gemini.js" — and performs zero network
calls to the generative backend. -/
theorem gemini_unconfigured_placeholder_no_call (initThrows : Bool)
    (outcome : GeminiOutcome) :
    initGeminiModel none initThrows = false ∧
    getAnalysisFromGemini (initGeminiModel none initThrows) outcome =
      (placeholderResult, 0) ∧
    placeholderResult.success = false ∧
    placeholderResult.error = some "Gemini model not initialized in gemini.js" := by
  exact ⟨rfl, by simp [initGeminiModel, getAnalysisFromGemini], rfl, rfl⟩

/-- C6: a request body missing any of the four required fields is rejected
with the 400 client error, and no species lookup, provider call or analysis
call happens. -/
theorem missing_field_rejected_no_work (plantData : List ProcessedPlant)
    (env : Env) (body : RequestBody)
    (h : body.latitude = .undef ∨ body.longitude = .undef ∨
         body.plantScientificName = .undef ∨ body.planDescription = .undef) :
    getCombinedData plantData env body =
      (.badRequest "Latitude, longitude, plantScientificName, and planDescription are required.",
       Effects.zero) := by
  have hm : missingFields body = true := by
    rcases h with h | h | h | h <;> simp [missingFields, h, JSValue.truthy]
  simp [getCombinedData, hm]

/-- Witness for C6 at a concrete input: a body without `planDescription`. -/
theorem missing_field_rejected_no_work_witness :
    getCombinedData (loadPlantData [zeaRow]) degradedEnv
      { latitude := .num (.val 10), longitude := .num (.val 123)
        plantScientificName := .str "Zea mays", planDescription := .undef } =
      (.badRequest "Latitude, longitude, plantScientificName, and planDescription are required.",
       Effects.zero) :=
  missing_field_rejected_no_work _ _ _ (Or.inr (Or.inr (Or.inr rfl)))

/-- C2: when the requested scientific name matches no species-table row under
case-insensitive exact comparison, the handler responds 404 and performs zero
provider calls and zero analysis-backend calls (only the in-memory lookup
ran). -/
theorem species_not_found_no_external_calls (plantData : List ProcessedPlant)
    (env : Env) (body : RequestBody) (s : String)
    (hname : body.plantScientificName = .str s)
    (hval : missingFields body = false)
    (hnomatch : ∀ p ∈ plantData, p.ScientificName ≠ "" →
      lowerStr p.ScientificName ≠ lowerStr s) :
    getCombinedData plantData env body =
      (.notFound ("Plant data not found for " ++ s ++ "."),
       { speciesLookups := 1, nasaCalls := 0, openWeatherCalls := 0,
         soilAttempts := 0, geminiCalls := 0 }) := by
  have hfind : findPlant plantData (.str s) = .ok none :=
    findPlant_eq_none plantData s hnomatch
  simp [getCombinedData, hval, hname, hfind, notFoundMsg, Effects.zero]

/-- Witness for C2: an absent species over a one-row table. -/
theorem species_not_found_no_external_calls_witness :
    getCombinedData (loadPlantData [zeaRow]) degradedEnv
      { latitude := .num (.val 10), longitude := .num (.val 123)
        plantScientificName := .str "Unobtainium vulgaris"
        planDescription := .str "small home plot" } =
      (.notFound "Plant data not found for Unobtainium vulgaris.",
       { speciesLookups := 1, nasaCalls := 0, openWeatherCalls := 0,
         soilAttempts := 0, geminiCalls := 0 }) :=
  species_not_found_no_external_calls _ _ _ "Unobtainium vulgaris" rfl (by decide)
    (by decide)

/-- C1: once validation passes and the species resolves, the handler builds
an aggregated record whose `location_conditions` holds exactly the three
slots, each equal to its own source's outcome (so a failure of one source
cannot influence the other two slots), and each slot is a payload or an
error object — never absent. -/
theorem aggregated_record_three_slots (plantData : List ProcessedPlant)
    (env : Env) (body : RequestBody) (plantInfo : ProcessedPlant)
    (hval : missingFields body = false)
    (hfind : findPlant plantData body.plantScientificName = .ok (some plantInfo)) :
    ∃ b : CombinedBody,
      (getCombinedData plantData env body).1 = .ok b ∧
      b.data_summary.location_conditions.nasa_power = fetchNasaPowerAPI env.nasa ∧
      b.data_summary.location_conditions.open_weather = fetchOpenWeatherAPI env.openWeather ∧
      b.data_summary.location_conditions.soil_type_probabilities =
        (fetchSoilAPIWithRetry env.soil).result ∧
      b.data_summary.plant_requirements = plantInfo ∧
      b.data_summary.location_conditions.nasa_power.wellFormed ∧
      b.data_summary.location_conditions.open_weather.wellFormed ∧
      b.data_summary.location_conditions.soil_type_probabilities.wellFormed := by
  have hmain : (getCombinedData plantData env body).1 = .ok
      { data_summary :=
          { userInput :=
              { latitude := parseFloatJS body.latitude
                longitude := parseFloatJS body.longitude
                planDescription := body.planDescription }
            location_conditions :=
              { nasa_power := fetchNasaPowerAPI env.nasa
                open_weather := fetchOpenWeatherAPI env.openWeather
                soil_type_probabilities := (fetchSoilAPIWithRetry env.soil).result }
            plant_requirements := plantInfo }
        ai_analysis := (getAnalysisFromGemini env.geminiModelConfigured env.gemini).1 } := by
    simp [getCombinedData, hval, hfind]
  exact ⟨_, hmain, rfl, rfl, rfl, rfl, SResult.wellFormed_all _,
    SResult.wellFormed_all _, SResult.wellFormed_all _⟩

/-- Witness for C1: the degraded environment (soil always 500, OpenWeatherMap
transport error) still yields a record with all three slots populated. -/
theorem aggregated_record_three_slots_witness :
    ∃ b : CombinedBody,
      (getCombinedData (loadPlantData [zeaRow]) degradedEnv scenarioBody).1 = .ok b ∧
      b.data_summary.location_conditions.nasa_power = fetchNasaPowerAPI degradedEnv.nasa ∧
      b.data_summary.location_conditions.open_weather =
        fetchOpenWeatherAPI degradedEnv.openWeather ∧
      b.data_summary.location_conditions.soil_type_probabilities =
        (fetchSoilAPIWithRetry degradedEnv.soil).result ∧
      b.data_summary.plant_requirements = processRow zeaRow ∧
      b.data_summary.location_conditions.nasa_power.wellFormed ∧
      b.data_summary.location_conditions.open_weather.wellFormed ∧
      b.data_summary.location_conditions.soil_type_probabilities.wellFormed :=
  aggregated_record_three_slots _ _ _ _ (by decide) (by decide)

/-- Counterexample to C3 as stated: a successful HTTP response whose
`probabilities` field is missing because the body has no `properties` object
does NOT yield an error immediately — the member access throws, the throw is
caught like a transport error, and the client retries: three attempts and
4500 ms of backoff are spent instead of one attempt and none. -/
theorem soil_missing_field_retried_counterexample :
    fetchSoilAPIWithRetry (fun _ => SoilStep.respOk none) =
      { result := .err ("Soil API fetch failed after 3 attempts: " ++ probTypeErrMsg) none
        attempts := 3
        delayMs := 4500 } ∧
    (fetchSoilAPIWithRetry (fun _ => SoilStep.respOk none)).attempts ≠ 1 := by
  constructor
  · decide
  · decide

/-- C3 amended: the soil client uses a default ceiling of 3 attempts and
waits `attempt × 1.5 s` between consecutive attempts; it retries exactly on
non-success HTTP status, transport error, or a successful response lacking
the whole `properties` object (whose field access throws and is caught like a
transport failure); a successful response whose `properties` object is
present but whose `probabilities` field is missing yields an error
immediately with no retry; after the final failed attempt it returns an
error carrying the last observed failure detail. -/
theorem soil_retry_policy (env : ℕ → SoilStep) :
    (1 ≤ (fetchSoilAPIWithRetry env).attempts ∧ (fetchSoilAPIWithRetry env).attempts ≤ 3) ∧
    (∀ p, env 1 = .respOk (some (some p)) →
       fetchSoilAPIWithRetry env = ⟨.ok p, 1, 0⟩) ∧
    (env 1 = .respOk (some none) →
       fetchSoilAPIWithRetry env =
         ⟨.err "Soil probability data not found (parsed)" none, 1, 0⟩) ∧
    (retryableStep (env 1) = true → ∀ p, env 2 = .respOk (some (some p)) →
       fetchSoilAPIWithRetry env = ⟨.ok p, 2, 1500⟩) ∧
    (retryableStep (env 1) = true → env 2 = .respOk (some none) →
       fetchSoilAPIWithRetry env =
         ⟨.err "Soil probability data not found (parsed)" none, 2, 1500⟩) ∧
    (retryableStep (env 1) = true → retryableStep (env 2) = true →
       fetchSoilAPIWithRetry env = ⟨soilFinalErr (env 3), 3, 4500⟩) := by
  rcases h1 : env 1 with (_ | (_ | p1)) | ⟨s1, b1⟩ | m1 <;>
  rcases h2 : env 2 with (_ | (_ | p2)) | ⟨s2, b2⟩ | m2 <;>
  rcases h3 : env 3 with (_ | (_ | p3)) | ⟨s3, b3⟩ | m3 <;>
  simp_all [fetchSoilAPIWithRetry, soilGo, retryableStep, soilFinalErr]

/-- Witness for the amended C3: a client failing twice with HTTP 503 then
succeeding uses exactly 3 attempts with 1500 + 3000 ms of backoff, and an
always-failing transport errors out at the ceiling carrying the last
detail. -/
theorem soil_retry_policy_witness :
    (fetchSoilAPIWithRetry
        (fun n => if n < 3 then SoilStep.respErr 503 none
                  else SoilStep.respOk (some (some "probs"))) =
      ⟨.ok "probs", 3, 4500⟩) ∧
    (fetchSoilAPIWithRetry (fun _ => SoilStep.netErr "timeout") =
      ⟨.err ("Soil API fetch failed after " ++ toString 3 ++ " attempts: timeout") none,
       3, 4500⟩) := by
  constructor
  · exact (soil_retry_policy
      (fun n => if n < 3 then SoilStep.respErr 503 none
                else SoilStep.respOk (some (some "probs")))).2.2.2.2.2
      (by decide) (by decide)
  · exact (soil_retry_policy (fun _ => SoilStep.netErr "timeout")).2.2.2.2.2
      (by decide) (by decide)

/-- Counterexample to C8 as stated: the loader only maps the literal texts
`'NA'` and `''` to null; any other unparsable text reaches `parseFloat`, so a
row with `TMIN = "abc"` is stored with `TMIN = NaN`, not with the field
absent. -/
theorem unparsable_field_not_null_counterexample :
    parseFloatChars "abc".data = JSNumber.nan ∧
    (processRow { ScientificName := "Zea mays", COMNAME := "maize", LIFO := "herb"
                  TMIN := "abc", TMAX := "NA", PHMIN := "", PHMAX := "8" }).TMIN =
      some JSNumber.nan ∧
    (processRow { ScientificName := "Zea mays", COMNAME := "maize", LIFO := "herb"
                  TMIN := "abc", TMAX := "NA", PHMIN := "", PHMAX := "8" }).TMIN ≠
      none := by
  refine ⟨by decide, by decide, by decide⟩

/-- C8 amended: every CSV row is kept (one processed row per raw row); a
numeric field whose text is the not-applicable marker `'NA'` or the empty
string is stored with that field absent (null), never defaulted to zero; any
other text is handed to `parseFloat`, so an otherwise unparsable text is
stored as `NaN` rather than null, and a stored numeric value is always
exactly the `parseFloat` of the field's text. -/
theorem csv_numeric_field_handling (rows : List CsvRow) (row : CsvRow) :
    (loadPlantData rows).length = rows.length ∧
    ((row.TMIN = "NA" ∨ row.TMIN = "") → (processRow row).TMIN = none) ∧
    ((row.TMAX = "NA" ∨ row.TMAX = "") → (processRow row).TMAX = none) ∧
    ((row.PHMIN = "NA" ∨ row.PHMIN = "") → (processRow row).PHMIN = none) ∧
    ((row.PHMAX = "NA" ∨ row.PHMAX = "") → (processRow row).PHMAX = none) ∧
    (¬(row.TMIN = "NA" ∨ row.TMIN = "") →
      (processRow row).TMIN = some (parseFloatChars row.TMIN.data)) ∧
    (¬(row.TMAX = "NA" ∨ row.TMAX = "") →
      (processRow row).TMAX = some (parseFloatChars row.TMAX.data)) ∧
    (¬(row.PHMIN = "NA" ∨ row.PHMIN = "") →
      (processRow row).PHMIN = some (parseFloatChars row.PHMIN.data)) ∧
    (¬(row.PHMAX = "NA" ∨ row.PHMAX = "") →
      (processRow row).PHMAX = some (parseFloatChars row.PHMAX.data)) := by
  refine ⟨by simp [loadPlantData], ?_, ?_, ?_, ?_, ?_, ?_, ?_, ?_⟩ <;>
    intro h <;>
    simp only [processRow, numField] <;>
    first
      | (rcases h with h | h <;> simp [h])
      | (rw [if_pos]; push_neg at h; exact ⟨h.1, h.2⟩)

/-- Witness for the amended C8 on a concrete mixed row. -/
theorem csv_numeric_field_handling_witness :
    (loadPlantData [zeaRow, mixedRow]).length = 2 ∧
    (processRow mixedRow).TMIN = none ∧
    (processRow mixedRow).TMAX = none ∧
    (processRow mixedRow).PHMIN = some (parseFloatChars "abc".data) := by
  have h := csv_numeric_field_handling [zeaRow, mixedRow] mixedRow
  exact ⟨h.1, h.2.1 (by decide), h.2.2.1 (by decide), h.2.2.2.2.2.2.2.1 (by decide)⟩

/-- C9 (evaluation at the failing input): with the species resolved, all
three sources succeeding and the analysis stubbed to succeed with the
specification's scenario-A text, the response does carry a successful
analysis result — but `parseAndSetScores` over that very text extracts no
feasibility score at all, because its regex demands a literal `Score:` before
the `7/10` that the text (and the app's own prompt format) lacks. -/
theorem scenario_a_score_extraction_fails :
    (∃ b, (getCombinedData (loadPlantData [zeaRow]) (happyEnv scenarioText)
        scenarioBody).1 = .ok b ∧
      b.ai_analysis.success = true ∧
      b.ai_analysis.analysis_text = some scenarioText) ∧
    parseAndSetScores scenarioText = (none, none) ∧
    (parseAndSetScores scenarioText).1 ≠ some 7 := by
  refine ⟨⟨_, rfl, by decide, by decide⟩, by decide, by decide⟩

/-- C4: a rejected backend call yields a `success:false` result with the
failure detail in its error/details fields; an empty or blocked response
likewise; `success:true` only ever arises from a delivered text (never a
silently empty success, and no exception leaves the invoker, which is total);
and the handler still responds 200 with the aggregated environmental record
alongside whatever analysis result was produced. -/
theorem analysis_failure_contained (configured : Bool) (outcome : GeminiOutcome)
    (plantData : List ProcessedPlant) (env : Env) (body : RequestBody)
    (plantInfo : ProcessedPlant) :
    (∀ msg br sr, configured = true → outcome = .throw msg br sr →
       (getAnalysisFromGemini configured outcome).1 =
         { success := false
           analysis_text := none
           error := some "Failed to get analysis from Gemini AI."
           details := some (geminiCatchDetails msg br sr) }) ∧
    (configured = true →
      (outcome = .respond none ∨ ∃ r, outcome = .respond (some r) ∧ r.text = .missing) →
      (getAnalysisFromGemini configured outcome).1.success = false ∧
      ((getAnalysisFromGemini configured outcome).1.error).isSome = true ∧
      ((getAnalysisFromGemini configured outcome).1.details).isSome = true) ∧
    ((getAnalysisFromGemini configured outcome).1.success = true →
      ∃ r s, outcome = .respond (some r) ∧ r.text = .callable s ∧
        (getAnalysisFromGemini configured outcome).1.analysis_text = some s) ∧
    (missingFields body = false →
      findPlant plantData body.plantScientificName = .ok (some plantInfo) →
      ∃ b, (getCombinedData plantData env body).1 = .ok b ∧
        b.ai_analysis = (getAnalysisFromGemini env.geminiModelConfigured env.gemini).1 ∧
        b.data_summary.location_conditions.nasa_power = fetchNasaPowerAPI env.nasa ∧
        b.data_summary.location_conditions.open_weather = fetchOpenWeatherAPI env.openWeather ∧
        b.data_summary.location_conditions.soil_type_probabilities =
          (fetchSoilAPIWithRetry env.soil).result) := by
  refine ⟨?_, ?_, ?_, ?_⟩
  · rintro msg br sr rfl rfl
    simp [getAnalysisFromGemini]
  · rintro rfl h
    rcases h with rfl | ⟨r, rfl, ht⟩
    · simp [getAnalysisFromGemini]
    · simp [getAnalysisFromGemini, ht]
  · intro hs
    cases configured with
    | false => simp [getAnalysisFromGemini, placeholderResult] at hs
    | true =>
        cases outcome with
        | throw m b2 s2 => simp [getAnalysisFromGemini] at hs
        | respond ro =>
            cases ro with
            | none => simp [getAnalysisFromGemini] at hs
            | some r =>
                obtain ⟨t, cands⟩ := r
                cases t with
                | missing => simp [getAnalysisFromGemini] at hs
                | nonCallable => simp [getAnalysisFromGemini] at hs
                | callable s =>
                    exact ⟨⟨.callable s, cands⟩, s, rfl, rfl,
                      by simp [getAnalysisFromGemini]⟩
  · intro hval hfind
    have hmain : (getCombinedData plantData env body).1 = .ok
        { data_summary :=
            { userInput :=
                { latitude := parseFloatJS body.latitude
                  longitude := parseFloatJS body.longitude
                  planDescription := body.planDescription }
              location_conditions :=
                { nasa_power := fetchNasaPowerAPI env.nasa
                  open_weather := fetchOpenWeatherAPI env.openWeather
                  soil_type_probabilities := (fetchSoilAPIWithRetry env.soil).result }
              plant_requirements := plantInfo }
          ai_analysis := (getAnalysisFromGemini env.geminiModelConfigured env.gemini).1 } := by
      simp [getCombinedData, hval, hfind]
    exact ⟨_, hmain, rfl, rfl, rfl, rfl⟩

/-- Witness for C4: the backend rejection of the degraded environment is
normalised to `success:false` and the handler still responds 200 with the
environmental record next to it. -/
theorem analysis_failure_contained_witness :
    (getAnalysisFromGemini true (.throw "network unreachable" none none)).1 =
      { success := false
        analysis_text := none
        error := some "Failed to get analysis from Gemini AI."
        details := some (geminiCatchDetails "network unreachable" none none) } ∧
    ∃ b, (getCombinedData (loadPlantData [zeaRow]) degradedEnv scenarioBody).1 = .ok b ∧
      b.ai_analysis =
        (getAnalysisFromGemini degradedEnv.geminiModelConfigured degradedEnv.gemini).1 ∧
      b.data_summary.location_conditions.nasa_power = fetchNasaPowerAPI degradedEnv.nasa ∧
      b.data_summary.location_conditions.open_weather =
        fetchOpenWeatherAPI degradedEnv.openWeather ∧
      b.data_summary.location_conditions.soil_type_probabilities =
        (fetchSoilAPIWithRetry degradedEnv.soil).result :=
  ⟨(analysis_failure_contained true (.throw "network unreachable" none none)
      (loadPlantData [zeaRow]) degradedEnv scenarioBody (processRow zeaRow)).1
      "network unreachable" none none rfl rfl,
   (analysis_failure_contained true (.throw "network unreachable" none none)
      (loadPlantData [zeaRow]) degradedEnv scenarioBody (processRow zeaRow)).2.2.2
      (by decide) (by decide)⟩

/-- `missingFields` tested positively, spelt out. -/
theorem missingFields_iff (body : RequestBody) :
    missingFields body = true ↔
      (body.latitude = .undef ∨ body.longitude = .undef ∨
       body.plantScientificName.truthy = false ∨ body.planDescription.truthy = false) := by
  simp [missingFields, Bool.or_eq_true, beq_iff_eq, Bool.not_eq_true', or_assoc]

/-- C10: latitude and longitude are rejected only when strictly `undefined`
(any other value — `null`, `0`, a non-numeric string — passes validation),
`plantScientificName`/`planDescription` are rejected whenever falsy
(including the empty string, by the iff), a non-numeric string becomes `NaN`
under `parseFloat`, and whenever validation passes the species lookup runs
and a found species flows downstream with `parseFloat`-converted
coordinates. -/
theorem validation_boundary (plantData : List ProcessedPlant) (env : Env)
    (body : RequestBody) :
    ((∃ e, (getCombinedData plantData env body).1 = .badRequest e) ↔
      (body.latitude = .undef ∨ body.longitude = .undef ∨
       body.plantScientificName.truthy = false ∨ body.planDescription.truthy = false)) ∧
    (missingFields body = false →
      (getCombinedData plantData env body).2.speciesLookups = 1) ∧
    parseFloatJS (.str "not-a-number") = .nan ∧
    parseFloatJS .null = .nan ∧
    (∀ plantInfo, missingFields body = false →
      findPlant plantData body.plantScientificName = .ok (some plantInfo) →
      ∃ b, (getCombinedData plantData env body).1 = .ok b ∧
        b.data_summary.userInput.latitude = parseFloatJS body.latitude ∧
        b.data_summary.userInput.longitude = parseFloatJS body.longitude) := by
  refine ⟨⟨?_, ?_⟩, ?_, by decide, by decide, ?_⟩
  · rintro ⟨e, he⟩
    by_cases hm : missingFields body = true
    · exact (missingFields_iff body).mp hm
    · exfalso
      rw [Bool.not_eq_true] at hm
      rcases hfp : findPlant plantData body.plantScientificName with msg | po
      · simp [getCombinedData, hm, hfp] at he
      · cases po with
        | none => simp [getCombinedData, hm, hfp] at he
        | some plantInfo => simp [getCombinedData, hm, hfp] at he
  · intro h
    have hm : missingFields body = true := (missingFields_iff body).mpr h
    exact ⟨"Latitude, longitude, plantScientificName, and planDescription are required.",
      by simp [getCombinedData, hm]⟩
  · intro hm
    rcases hfp : findPlant plantData body.plantScientificName with msg | po
    · simp [getCombinedData, hm, hfp]
    · cases po with
      | none => simp [getCombinedData, hm, hfp]
      | some plantInfo => simp [getCombinedData, hm, hfp]
  · intro plantInfo hm hfind
    have hmain : (getCombinedData plantData env body).1 = .ok
        { data_summary :=
            { userInput :=
                { latitude := parseFloatJS body.latitude
                  longitude := parseFloatJS body.longitude
                  planDescription := body.planDescription }
              location_conditions :=
                { nasa_power := fetchNasaPowerAPI env.nasa
                  open_weather := fetchOpenWeatherAPI env.openWeather
                  soil_type_probabilities := (fetchSoilAPIWithRetry env.soil).result }
              plant_requirements := plantInfo }
          ai_analysis := (getAnalysisFromGemini env.geminiModelConfigured env.gemini).1 } := by
      simp [getCombinedData, hm, hfind]
    exact ⟨_, hmain, rfl, rfl⟩

/-- Witness for C10: a body with `latitude:"abc"` and `longitude:0` passes
validation, the species lookup runs, and the pipeline records latitude
`NaN`. -/
theorem validation_boundary_witness :
    ((∃ e, (getCombinedData (loadPlantData [zeaRow]) degradedEnv
        { latitude := .str "abc", longitude := .num (.val 0)
          plantScientificName := .str "Zea mays"
          planDescription := .str "plot" }).1 = .badRequest e) ↔
      ((JSValue.str "abc") = .undef ∨ (JSValue.num (.val 0)) = .undef ∨
       (JSValue.str "Zea mays").truthy = false ∨ (JSValue.str "plot").truthy = false)) ∧
    (getCombinedData (loadPlantData [zeaRow]) degradedEnv
        { latitude := .str "abc", longitude := .num (.val 0)
          plantScientificName := .str "Zea mays"
          planDescription := .str "plot" }).2.speciesLookups = 1 ∧
    ∃ b, (getCombinedData (loadPlantData [zeaRow]) degradedEnv
        { latitude := .str "abc", longitude := .num (.val 0)
          plantScientificName := .str "Zea mays"
          planDescription := .str "plot" }).1 = .ok b ∧
      b.data_summary.userInput.latitude = JSNumber.nan := by
  have h := validation_boundary (loadPlantData [zeaRow]) degradedEnv
    { latitude := .str "abc", longitude := .num (.val 0)
      plantScientificName := .str "Zea mays", planDescription := .str "plot" }
  refine ⟨h.1, h.2.1 (by decide), ?_⟩
  obtain ⟨b, hb, hlat, _⟩ := h.2.2.2.2 (processRow zeaRow) (by decide) (by decide)
  exact ⟨b, hb, hlat.trans (by decide)⟩

/-- A non-empty query is not contained in the empty string. -/
theorem substrContains_empty (q : String) (hq : q ≠ "") :
    substrContains "" q = false := by
  simp only [substrContains, decide_eq_false_iff_not]
  intro h
  have hnil : q.data = [] := by
    simpa using List.eq_nil_of_infix_nil h
  exact hq (by cases q; simp_all)

/-- One scan iteration either leaves the accumulators unchanged or appends
exactly one good, not-yet-seen suggestion for the current plant. -/
theorem suggestStep_spec (query : String) (hq : query ≠ "") (p : ClientPlant)
    (filtered : List Suggestion) (added : List String) :
    suggestStep query p filtered added = (filtered, added) ∨
    (p.ScientificName ∉ added ∧
     ∃ s : Suggestion, s.ScientificName = p.ScientificName ∧ GoodMatch query p s ∧
       suggestStep query p filtered added =
         (filtered ++ [s], added ++ [p.ScientificName])) := by
  by_cases hsci : sciLower p ≠ "" ∧ substrContains (sciLower p) query = true
  · by_cases hmem : p.ScientificName ∈ added
    · left; simp [suggestStep, hsci, hmem]
    · right
      refine ⟨hmem, ⟨p.ScientificName, none⟩, rfl, ⟨rfl, Or.inl ⟨hsci, rfl⟩⟩, ?_⟩
      simp [suggestStep, hsci, hmem]
  · rcases hfind : (commonNamesArray p).find? (fun cn => substrContains cn query)
      with _ | foundCn
    · left; simp [suggestStep, hsci, hfind]
    · by_cases hmem : p.ScientificName ∈ added
      · left; simp [suggestStep, hsci, hfind, hmem]
      · right
        have hfind0 := hfind
        have hCOM : p.COMNAME ≠ "" := by
          intro hc
          rw [commonNamesArray, if_neg (by simp [hc])] at hfind
          simp at hfind
        have harr : commonNamesArray p = (splitTrim p.COMNAME).map lowerStr := by
          rw [commonNamesArray, if_pos hCOM]
        rw [harr, List.find?_map] at hfind
        obtain ⟨o, ho, holow⟩ := Option.map_eq_some'.mp hfind
        have ho' : (splitTrim p.COMNAME).find?
            (fun ocn => substrContains (lowerStr ocn) query) = some o := ho
        have hoPred : substrContains (lowerStr o) query = true := by
          have := List.find?_some ho'
          simpa using this
        have hone : o ≠ "" := by
          intro h0
          rw [h0] at hoPred
          have : lowerStr "" = "" := rfl
          rw [this, substrContains_empty query hq] at hoPred
          exact Bool.false_ne_true hoPred
        refine ⟨hmem, ⟨p.ScientificName, some o⟩, rfl,
          ⟨rfl, Or.inr ⟨hsci, ho'.symm, rfl⟩⟩, ?_⟩
        simp [suggestStep, hsci, hfind0, hmem, hCOM, ho', hone]

/-- Invariant of the scan loop: starting below the cap with consistent
accumulators, it only ever appends suggestions, stays within the cap of 7,
keeps scientific names duplicate-free, follows table order, and emits only
good matches. -/
theorem suggestGo_spec (query : String) (hq : query ≠ "") :
    ∀ (plants : List ClientPlant) (filtered : List Suggestion) (added : List String),
      added = filtered.map Suggestion.ScientificName →
      filtered.length < 7 →
      (filtered.map Suggestion.ScientificName).Nodup →
      ∃ extra,
        suggestGo query plants filtered added = filtered ++ extra ∧
        (filtered ++ extra).length ≤ 7 ∧
        ((filtered ++ extra).map Suggestion.ScientificName).Nodup ∧
        List.Sublist (extra.map Suggestion.ScientificName) (plants.map ClientPlant.ScientificName) ∧
        (∀ s ∈ extra, ∃ p ∈ plants, GoodMatch query p s) := by
  intro plants
  induction plants with
  | nil =>
      intro filtered added hadd hlen hnd
      exact ⟨[], by simp [suggestGo], by simp; omega, by simpa using hnd,
        by simp, by simp⟩
  | cons p rest ih =>
      intro filtered added hadd hlen hnd
      rcases suggestStep_spec query hq p filtered added with hstep |
        ⟨hmem, s, hsname, hgood, hstep⟩
      · have h7 : ¬ 7 ≤ filtered.length := by omega
        obtain ⟨extra, hgo, hlen', hnd', hsub, hmem'⟩ := ih filtered added hadd hlen hnd
        refine ⟨extra, ?_, hlen', hnd', hsub.cons _, ?_⟩
        · simp only [suggestGo, hstep]
          rw [if_neg h7]
          exact hgo
        · intro t ht
          obtain ⟨p', hp', hg⟩ := hmem' t ht
          exact ⟨p', List.mem_cons_of_mem _ hp', hg⟩
      · have hnotin : p.ScientificName ∉ filtered.map Suggestion.ScientificName :=
          hadd ▸ hmem
        have hnd1 : ((filtered ++ [s]).map Suggestion.ScientificName).Nodup := by
          rw [List.map_append]
          refine List.nodup_append.mpr ⟨hnd, List.nodup_singleton _, ?_⟩
          intro a ha hb
          simp [hsname] at hb
          subst hb
          exact hnotin ha
        by_cases h7 : 7 ≤ (filtered ++ [s]).length
        · refine ⟨[s], ?_, ?_, hnd1, ?_, ?_⟩
          · simp only [suggestGo, hstep]
            rw [if_pos h7]
          · simp only [List.length_append, List.length_singleton]
            omega
          · simp only [List.map_cons, List.map_nil, List.map_singleton, hsname]
            exact (List.nil_sublist (rest.map ClientPlant.ScientificName)).cons₂
              p.ScientificName
          · intro t ht
            simp only [List.mem_singleton] at ht
            subst ht
            exact ⟨p, List.mem_cons_self p rest, hgood⟩
        · push_neg at h7
          have hadd1 : added ++ [p.ScientificName] =
              (filtered ++ [s]).map Suggestion.ScientificName := by
            simp [hadd, hsname]
          obtain ⟨extra, hgo, hlen', hndr, hsub, hmemr⟩ :=
            ih (filtered ++ [s]) (added ++ [p.ScientificName]) hadd1 h7 hnd1
          refine ⟨s :: extra, ?_, ?_, ?_, ?_, ?_⟩
          · simp only [suggestGo, hstep]
            rw [if_neg (by omega), hgo, List.append_assoc, List.singleton_append]
          · simpa [List.append_assoc] using hlen'
          · simpa [List.append_assoc] using hndr
          · rw [List.map_cons, List.map_cons, hsname]
            exact hsub.cons₂ p.ScientificName
          · intro t ht
            rcases List.mem_cons.mp ht with rfl | ht
            · exact ⟨p, List.mem_cons_self p rest, hgood⟩
            · obtain ⟨p', hp', hg⟩ := hmemr t ht
              exact ⟨p', List.mem_cons_of_mem _ hp', hg⟩

/-- C7: for every non-empty (trimmed, lowercased) query fragment the
suggestion scan returns at most 7 entries with pairwise-distinct scientific
names, in species-table order, and every entry is a correct match: the
fragment occurs in the scientific name (no alias reported) or, failing that,
in a comma-split trimmed common name, in which case the first original
common name containing the fragment is reported. -/
theorem suggest_scan_bounded (allPlants : List ClientPlant) (input : String)
    (hq : lowerStr (jsTrim input) ≠ "") :
    (handlePlantInput allPlants input).length ≤ 7 ∧
    ((handlePlantInput allPlants input).map Suggestion.ScientificName).Nodup ∧
    List.Sublist ((handlePlantInput allPlants input).map Suggestion.ScientificName)
      (allPlants.map ClientPlant.ScientificName) ∧
    ∀ s ∈ handlePlantInput allPlants input, ∃ p ∈ allPlants,
      GoodMatch (lowerStr (jsTrim input)) p s := by
  obtain ⟨extra, hgo, hlen, hnd, hsub, hmem⟩ :=
    suggestGo_spec (lowerStr (jsTrim input)) hq allPlants [] [] rfl (by norm_num) (by simp)
  have hh : handlePlantInput allPlants input = extra := by
    rw [handlePlantInput]
    simp only [hq, if_neg]
    simpa using hgo
  rw [hh]
  exact ⟨by simpa using hlen, by simpa using hnd, hsub, hmem⟩

/-- Witness for C7 over an eight-row table all matching "a": the scan stops
at 7 suggestions. -/
theorem suggest_scan_bounded_witness :
    (handlePlantInput eightPlants "a").length ≤ 7 ∧
    ((handlePlantInput eightPlants "a").map Suggestion.ScientificName).Nodup ∧
    List.Sublist ((handlePlantInput eightPlants "a").map Suggestion.ScientificName)
      (eightPlants.map ClientPlant.ScientificName) ∧
    ∀ s ∈ handlePlantInput eightPlants "a", ∃ p ∈ eightPlants,
      GoodMatch (lowerStr (jsTrim "a")) p s :=
  suggest_scan_bounded eightPlants "a" (by decide)

end GreenPoint
